import Mathlib

/-!
# Verification of the Alice/Todoist dialog core

A shallow embedding of `src/todoist/scenes.py` and `src/todoist/handler.py`:
the scene state machine, the slot extractors, the date humanizer and the
turn driver.  Python dictionaries are modelled as association lists over a
JSON-like `Value` type; Python exceptions (`KeyError`, `AttributeError`,
`TypeError`, `IndexError`, `ValueError`, `OverflowError`) are modelled with
`Except String`.  Calendar dates are modelled by their Python
`date.toordinal()` value (an `Int`), with civil (year, month, day)
conversions given by the standard proleptic-Gregorian algorithms.
-/

/-- A JSON-like value, as carried in the request's `intents` and `session`
payloads and in the response's state block. -/
inductive Value where
  | null
  | bool (b : Bool)
  | int (n : Int)
  | str (s : String)
  | dict (fields : List (String × Value))

/-- First-match lookup in an association list: Python `d[k]` / `d.get(k)`
on a dict with (unique) string keys. -/
def dlookup : List (String × Value) → String → Option Value
  | [], _ => none
  | p :: rest, key => if p.1 = key then some p.2 else dlookup rest key

/-- `d[k] = v` on an association list: replace the first binding of `k`,
or append one.  This is the effect of one key of Python `dict.update`. -/
def dsetKey (l : List (String × Value)) (k : String) (v : Value) : List (String × Value) :=
  if l.any (fun p => p.1 == k) then l.map (fun p => if p.1 = k then (k, v) else p)
  else l ++ [(k, v)]

/-- Python `base.update(news)` on dicts modelled as association lists. -/
def dupdate (base : List (String × Value)) (news : List (String × Value)) : List (String × Value) :=
  news.foldl (fun acc kv => dsetKey acc kv.1 kv.2) base

/-- Python `v is None`. -/
def Value.isNull : Value → Bool
  | .null => true
  | _ => false

/-- Whether a value is a dict — the unhashable case when the value is used
as a lookup key (`TypeError: unhashable type`); the other variants (`None`,
`bool`, `int`, `str`) are hashable. -/
def Value.isDict : Value → Bool
  | .dict _ => true
  | _ => false

/-- Python `v == s` for a string literal `s` (equality with a non-string
value is `False`, never an error). -/
def Value.isStrEq : Value → String → Bool
  | .str t, s => t == s
  | _, _ => false

/-- Python truthiness of a value (`bool(v)`). -/
def Value.truthy : Value → Bool
  | .null => false
  | .bool b => b
  | .int n => n != 0
  | .str s => s != ""
  | .dict l => !l.isEmpty

/-- Python `v.get(k, dflt)`: only dicts have `.get`; anything else raises
`AttributeError`. -/
def Value.pyGet : Value → String → Value → Except String Value
  | .dict fields, k, dflt => .ok ((dlookup fields k).getD dflt)
  | _, _, _ => .error "AttributeError"

/-- Python `v[k]` subscription: on a dict a missing key raises `KeyError`;
on a non-dict the subscription itself raises `TypeError`. -/
def Value.pyIndex : Value → String → Except String Value
  | .dict fields, k =>
    match dlookup fields k with
    | some v => .ok v
    | none => .error "KeyError"
  | _, _ => .error "TypeError"

/-- Coerce a value to a Python `int` where the code does integer arithmetic
with it (`timedelta(days=·)`, `date(·,·,·)`); Python `bool` is an `int`
subtype, anything else raises `TypeError`. -/
def Value.asInt : Value → Except String Int
  | .int n => .ok n
  | .bool b => .ok (if b then 1 else 0)
  | _ => .error "TypeError"

/-! ## Calendar arithmetic

Python `datetime.date` values are embedded as their `toordinal()` ordinal
(day 1 = 0001-01-01 of the proleptic Gregorian calendar), so that date
comparison is `Int` order and `date + timedelta(days = n)` is `+ n`.
The (year, month, day) components are recovered with the standard
civil-from-days algorithm. -/

/-- Civil (year, month, day) of a Python date ordinal. -/
def civilFromDays (n : Int) : Int × Int × Int :=
  let z := n + 305
  let era := z.fdiv 146097
  let doe := z - era * 146097
  let yoe := (doe - doe.fdiv 1460 + doe.fdiv 36524 - doe.fdiv 146096).fdiv 365
  let y := yoe + era * 400
  let doy := doe - (365 * yoe + yoe.fdiv 4 - yoe.fdiv 100)
  let mp := (5 * doy + 2).fdiv 153
  let d := doy - (153 * mp + 2).fdiv 5 + 1
  let m := if mp < 10 then mp + 3 else mp - 9
  (if m ≤ 2 then y + 1 else y, m, d)

/-- Python date ordinal of a civil (year, month, day). -/
def daysFromCivil (y m d : Int) : Int :=
  let y' := if m ≤ 2 then y - 1 else y
  let era := y'.fdiv 400
  let yoe := y' - era * 400
  let mp := if 2 < m then m - 3 else m + 9
  let doy := (153 * mp + 2).fdiv 5 + d - 1
  let doe := yoe * 365 + yoe.fdiv 4 - yoe.fdiv 100 + doy
  era * 146097 + doe - 305

/-- `date.year` of an ordinal. -/
def yearOf (n : Int) : Int := (civilFromDays n).1

/-- `date.month` of an ordinal. -/
def monthOf (n : Int) : Int := (civilFromDays n).2.1

/-- `date.day` of an ordinal. -/
def dayOf (n : Int) : Int := (civilFromDays n).2.2

/-- Gregorian leap year. -/
def isLeap (y : Int) : Bool := (y % 4 == 0 && y % 100 != 0) || y % 400 == 0

/-- Days in a month, as enforced by the `datetime.date` constructor. -/
def daysInMonth (y m : Int) : Int :=
  if m == 2 then (if isLeap y then 29 else 28)
  else if m == 4 || m == 6 || m == 9 || m == 11 then 30
  else 31

/-- Russian month name in the genitive case, as produced by glibc
`strftime("%B")` under the `ru_RU.UTF-8` locale set at module import. -/
def monthNameRu (m : Int) : String :=
  if m == 1 then "января" else if m == 2 then "февраля"
  else if m == 3 then "марта" else if m == 4 then "апреля"
  else if m == 5 then "мая" else if m == 6 then "июня"
  else if m == 7 then "июля" else if m == 8 then "августа"
  else if m == 9 then "сентября" else if m == 10 then "октября"
  else if m == 11 then "ноября" else if m == 12 then "декабря"
  else ""

/-- Two-digit zero-padded rendering of a day or month (`strftime "%d"` / `"%m"`). -/
def pad2 (n : Int) : String :=
  if n < 10 then "0" ++ toString n else toString n

/-- Four-digit zero-padded year (`date.isoformat`). -/
def pad4 (n : Int) : String :=
  if n < 10 then "000" ++ toString n
  else if n < 100 then "00" ++ toString n
  else if n < 1000 then "0" ++ toString n
  else toString n

/-- Python `s.lstrip("0")`: drop every leading `'0'` character. -/
def lstrip0 (s : String) : String := String.mk (s.data.dropWhile (fun c => c == '0'))

/-- `strftime("%d %B")` of an ordinal (before the `lstrip`). -/
def fmt_dB (n : Int) : String := pad2 (dayOf n) ++ " " ++ monthNameRu (monthOf n)

/-- `strftime("%d %B %Y года")` of an ordinal (before the `lstrip`). -/
def fmt_dBY (n : Int) : String :=
  pad2 (dayOf n) ++ " " ++ monthNameRu (monthOf n) ++ " " ++ toString (yearOf n) ++ " года"

/-- `date.isoformat()` of an ordinal. -/
def isoformat (n : Int) : String :=
  pad4 (yearOf n) ++ "-" ++ pad2 (monthOf n) ++ "-" ++ pad2 (dayOf n)

/-! ## The request, the intent names and the state key -/

/-- Modelled from the spec: `todoist/request.py` is not under `src/`; per
§3/§6 a `Request` (Turn) exposes `intents` (mapping from intent name to its
recognized-slots payload) and `session` (the persisted key/value state the
platform round-trips), both read-only within a turn. -/
structure Request where
  intents : List (String × Value)
  session : List (String × Value)

/-- Modelled from the spec: `todoist/intents.py` is not under `src/`; it
declares the global intent name for listing tasks used by
`TodoistScene.handle_global_intents`.  Only its identity as a fixed string
distinct from the other intent names matters. -/
def intents.GET_NEAREST_TASKS : String := "GET_NEAREST_TASKS"

/-- Modelled from the spec: `todoist/intents.py` is not under `src/`; it
declares the global intent name for creating a task. -/
def intents.CREATE_TASK : String := "CREATE_TASK"

/-! `todoist/state.py` is not under `src/`; per §6 `STATE_RESPONSE_KEY` is a
fixed platform-defined field name distinct from `response`/`version`, so the
state block is modelled structurally as the `state` field of
`WebhookResponse`. -/

/-! ## Slot extractors -/

/-- The task filter enumeration (`scenes.py`, `TaskFilter`). -/
inductive TaskFilter where
  | TODAY
  | TOMORROW
deriving DecidableEq

/-- The enum member's `.value` string. -/
def TaskFilter.value : TaskFilter → String
  | .TODAY => "today"
  | .TOMORROW => "tomorrow"

/-- `TaskFilter.from_request` (`scenes.py` lines 24–31): read the `time`
slot value of the named intent; if falsy, fall back to
`session["time"]["value"]`; map `"today"`/`"tomorrow"`, anything else to
`None`. -/
def TaskFilter.from_request (r : Request) (intent_name : String) :
    Except String (Option TaskFilter) :=
  match dlookup r.intents intent_name with
  | none => .error "KeyError"
  | some intent =>
    match intent.pyGet "slots" (.dict []) with
    | .error e => .error e
    | .ok slots =>
      match slots.pyGet "time" (.dict []) with
      | .error e => .error e
      | .ok time_slot =>
        match time_slot.pyGet "value" .null with
        | .error e => .error e
        | .ok time_from_intent =>
          let fallback_value :=
            if time_from_intent.truthy then .ok time_from_intent
            else ((dlookup r.session "time").getD (.dict [])).pyGet "value" .null
          match fallback_value with
          | .error e => .error e
          | .ok current_filter =>
            if current_filter.isStrEq "today" then .ok (some .TODAY)
            else if current_filter.isStrEq "tomorrow" then .ok (some .TOMORROW)
            else .ok none

/-- `Time.from_request_slot` (`scenes.py` lines 34–50): resolve a
`YANDEX.DATETIME` slot to a date ordinal.  A slot of any other declared
type yields `none`; a missing `type` key (in particular the `{}` default
taken when the slot is absent) raises `KeyError`.  The relative branch is
`today + timedelta(days=day)` (with Python's `date` range check); the
absolute branch is `date(year, month, day)` with each component defaulting
to today's, raising `ValueError` on an invalid civil date. -/
def Time.from_request_slot (today : Int) (r : Request) (intent_name time_key : String) :
    Except String (Option Int) :=
  match dlookup r.intents intent_name with
  | none => .error "KeyError"
  | some intent =>
    match intent.pyGet "slots" (.dict []) with
    | .error e => .error e
    | .ok slots =>
      match slots.pyGet time_key (.dict []) with
      | .error e => .error e
      | .ok time_from_intent =>
        match time_from_intent.pyIndex "type" with
        | .error e => .error e
        | .ok ty =>
          if !(ty.isStrEq "YANDEX.DATETIME") then .ok none
          else
            match time_from_intent.pyIndex "value" with
            | .error e => .error e
            | .ok value =>
              match value.pyIndex "day_is_relative" with
              | .error e => .error e
              | .ok rel =>
                if rel.truthy then
                  match value.pyIndex "day" with
                  | .error e => .error e
                  | .ok dayv =>
                    match dayv.asInt with
                    | .error e => .error e
                    | .ok delta =>
                      if today + delta < 1 ∨ 3652059 < today + delta then .error "OverflowError"
                      else .ok (some (today + delta))
                else
                  match (value.pyGet "year" (.int (yearOf today))).bind Value.asInt with
                  | .error e => .error e
                  | .ok y =>
                    match (value.pyGet "month" (.int (monthOf today))).bind Value.asInt with
                    | .error e => .error e
                    | .ok m =>
                      match (value.pyGet "day" (.int (dayOf today))).bind Value.asInt with
                      | .error e => .error e
                      | .ok d =>
                        if 1 ≤ y ∧ y ≤ 9999 ∧ 1 ≤ m ∧ m ≤ 12 ∧ 1 ≤ d ∧ d ≤ daysInMonth y m
                        then .ok (some (daysFromCivil y m d))
                        else .error "ValueError"

/-- `Time.make_relative` (`scenes.py` lines 52–72): humanize an absolute
date ordinal relative to `today`. -/
def Time.make_relative (today absolute_date : Int) : String :=
  if absolute_date = today then "сегодня"
  else if today < absolute_date then
    if absolute_date = today + 1 then "завтра"
    else if absolute_date = today + 2 then "послезавтра"
    else if yearOf absolute_date = yearOf today then lstrip0 (fmt_dB absolute_date)
    else lstrip0 (fmt_dBY absolute_date)
  else
    if absolute_date = today - 1 then "вчера"
    else if absolute_date = today - 2 then "позавчера"
    else lstrip0 (fmt_dBY absolute_date)

/-- `TaskPosition.from_request` (`scenes.py` lines 74–79):
`request.session.get('position', {}).get('value', 0)`. -/
def TaskPosition.from_request (r : Request) : Except String Value :=
  ((dlookup r.session "position").getD (.dict [])).pyGet "value" (.int 0)

/-! ## Scenes, responses and the registry -/

/-- A task as returned by the external Todoist backend; the core only reads
its `content`. -/
structure Todoist.Task where
  content : String

/-- The external Todoist API collaborator (`api` module-level singleton),
passed explicitly: `get_tasks(filter=·)` and `add_task(content, due_date=·)`. -/
structure Api where
  get_tasks : String → List Todoist.Task
  add_task : String → String → Todoist.Task

/-- The `response` dict of the webhook payload. -/
structure ResponseBody where
  text : String
  tts : String
  card : Option Value
  buttons : Option Value
  directives : Option Value

/-- The full webhook payload: `response`, `version` and the state block
stored under `STATE_RESPONSE_KEY`. -/
structure WebhookResponse where
  response : ResponseBody
  version : String
  state : List (String × Value)

/-- The instantiable scenes of the registry, each identified by its class
name (`Scene.id`). -/
inductive ConcreteScene where
  | Welcome
  | TasksList
  | CreateTask
deriving DecidableEq

/-- `Scene.id` (`scenes.py` lines 90–92): the class name. -/
def ConcreteScene.id : ConcreteScene → String
  | .Welcome => "Welcome"
  | .TasksList => "TasksList"
  | .CreateTask => "CreateTask"

/-- `Scene.make_response` (`scenes.py` lines 117–137): assemble the webhook
payload; the state block starts as `{'scene': self.id()}` and, when an
extra `state` dict is given, is `update`d with it. -/
def Scene.make_response (sceneId : String) (text : String) (tts : Option String)
    (card : Option Value) (buttons : Option Value) (directives : Option Value)
    (state : Option (List (String × Value))) : WebhookResponse :=
  { response :=
      { text := text
        tts := tts.getD text
        card := card
        buttons := buttons
        directives := directives }
    version := "1.0"
    state :=
      match state with
      | none => [("scene", Value.str sceneId)]
      | some st => dupdate [("scene", Value.str sceneId)] st }

/-- `Scene.fallback` (`scenes.py` lines 114–115). -/
def Scene.fallback (c : ConcreteScene) (_r : Request) : WebhookResponse :=
  Scene.make_response c.id
    "Извините, я вас не поняла. Пожалуйста, попробуйте переформулировать вопрос."
    none none none none none

/-- `Welcome.reply` (`scenes.py` lines 149–152). -/
def Welcome.reply (_r : Request) : WebhookResponse :=
  Scene.make_response "Welcome"
    "Привет! Я помогу управлять вашими задачами в Todoist."
    (some "Привет! Я помогу управлять вашими задачами в Tod+oist.")
    none none none none

/-- `TasksList.reply` (`scenes.py` lines 159–172): extract the filter
(`.value` on the extractor's result raises `AttributeError` when it is
`None`), list the tasks, and render the numbered list. -/
def TasksList.reply (api : Api) (r : Request) : Except String WebhookResponse :=
  match TaskFilter.from_request r intents.GET_NEAREST_TASKS with
  | .error e => .error e
  | .ok none => .error "AttributeError"
  | .ok (some f) =>
    let tasks := api.get_tasks f.value
    let tasks_count := tasks.length
    let head := "Сейчас у вас " ++ toString tasks_count ++ " задач в списке:"
    let items := tasks.enum.map (fun p => "\n- " ++ toString (p.1 + 1) ++ ": " ++ p.2.content ++ ".")
    let text := String.intercalate " " (head :: items)
    .ok (Scene.make_response "TasksList" text none none none none none)

/-- Python `str.upper()` on one character, for the Latin and Cyrillic
letters that occur here. -/
def pyUpperChar (c : Char) : Char :=
  if 'a' ≤ c ∧ c ≤ 'z' then Char.ofNat (c.toNat - 32)
  else if 'а' ≤ c ∧ c ≤ 'я' then Char.ofNat (c.toNat - 32)
  else if c = 'ё' then 'Ё'
  else c

/-- `CreateTask.reply` (`scenes.py` lines 179–192): read the `what` slot
(plain subscriptions, so a missing key raises `KeyError`), capitalize its
first character (`[0]` on an empty string raises `IndexError`), extract the
optional due date, call `add_task` with `task_due_date.isoformat()`
(`AttributeError` when the extractor returned `None`), and render the
confirmation. -/
def CreateTask.reply (api : Api) (today : Int) (r : Request) : Except String WebhookResponse :=
  match dlookup r.intents intents.CREATE_TASK with
  | none => .error "KeyError"
  | some intent =>
    match intent.pyIndex "slots" with
    | .error e => .error e
    | .ok slots =>
      match slots.pyIndex "what" with
      | .error e => .error e
      | .ok what =>
        match what.pyIndex "value" with
        | .error e => .error e
        | .ok whatValue =>
          match whatValue with
          | .str raw =>
            match raw.data with
            | [] => .error "IndexError"
            | ch :: rest =>
              let task_content := String.mk (pyUpperChar ch :: rest)
              match Time.from_request_slot today r intents.CREATE_TASK "when" with
              | .error e => .error e
              | .ok task_due_date =>
                match task_due_date with
                | none => .error "AttributeError"
                | some dd =>
                  let task := api.add_task task_content (isoformat dd)
                  let due_date := "на " ++ Time.make_relative today dd
                  let service_text := String.intercalate " " ["Создала задачу", due_date]
                  let text := String.intercalate " " [service_text ++ ":", "\"" ++ task.content ++ "\""]
                  .ok (Scene.make_response "CreateTask" text none none none none none)
          | _ => .error "TypeError"

/-- `handle_local_intents` of each concrete scene (`scenes.py` lines
154–155, 174–175, 194–195): all three bodies are `pass`, i.e. `None`. -/
def handle_local_intents : ConcreteScene → Request → Option ConcreteScene
  | .Welcome, _ => none
  | .TasksList, _ => none
  | .CreateTask, _ => none

/-- `TodoistScene.handle_global_intents` (`scenes.py` lines 141–145),
shared by all concrete scenes. -/
def TodoistScene.handle_global_intents (_c : ConcreteScene) (r : Request) : Option ConcreteScene :=
  if (dlookup r.intents intents.GET_NEAREST_TASKS).isSome then some .TasksList
  else if (dlookup r.intents intents.CREATE_TASK).isSome then some .CreateTask
  else none

/-- `Scene.move` (`scenes.py` lines 100–104): local intents first, global
intents only when the local handler returned `None`. -/
def Scene.move (c : ConcreteScene) (r : Request) : Option ConcreteScene :=
  match handle_local_intents c r with
  | some next_scene => some next_scene
  | none => TodoistScene.handle_global_intents c r

/-- Dispatch of the abstract `reply` over the concrete scenes. -/
def Scene.reply (api : Api) (today : Int) : ConcreteScene → Request → Except String WebhookResponse
  | .Welcome, r => .ok (Welcome.reply r)
  | .TasksList, r => TasksList.reply api r
  | .CreateTask, r => CreateTask.reply api today r

/-- The classes collected by `_list_scenes` (`scenes.py` lines 198–209):
`inspect.getmembers` finds every `Scene` subclass defined in the module,
including the abstract `Scene` and `TodoistScene` themselves, keyed by
class name. -/
inductive SceneClass where
  | Scene
  | TodoistScene
  | Welcome
  | TasksList
  | CreateTask
deriving DecidableEq

/-- `SCENES.get(current_scene_id, DEFAULT_SCENE)`: `dict.get` raises
`TypeError: unhashable type` when the key is itself a dict; any other
(hashable) value is looked up among the five registry keys, defaulting to
`Welcome`. -/
def SCENES_get (v : Value) : Except String SceneClass :=
  if v.isDict then .error "TypeError"
  else .ok (
    if v.isStrEq "Scene" then .Scene
    else if v.isStrEq "TodoistScene" then .TodoistScene
    else if v.isStrEq "Welcome" then .Welcome
    else if v.isStrEq "TasksList" then .TasksList
    else if v.isStrEq "CreateTask" then .CreateTask
    else .Welcome)

/-- Calling the looked-up class: instantiating the abstract `Scene` or
`TodoistScene` (both carry unimplemented `abstractmethod`s) raises
`TypeError`; the concrete classes construct normally. -/
def SceneClass.call : SceneClass → Except String ConcreteScene
  | .Scene => .error "TypeError"
  | .TodoistScene => .error "TypeError"
  | .Welcome => .ok .Welcome
  | .TasksList => .ok .TasksList
  | .CreateTask => .ok .CreateTask

/-- `handler` (`handler.py` lines 7–20): the turn driver.  `today` is the
process date used by the date extractor/humanizer. -/
def handler (api : Api) (today : Int) (r : Request) : Except String WebhookResponse :=
  let current_scene_id := (dlookup r.session "scene").getD .null
  if current_scene_id.isNull then .ok (Welcome.reply r)
  else
    match SCENES_get current_scene_id with
    | .error e => .error e
    | .ok cls =>
      match cls.call with
      | .error e => .error e
      | .ok current_scene =>
        match Scene.move current_scene r with
        | some next_scene => Scene.reply api today next_scene r
        | none => .ok (Scene.fallback current_scene r)

/-! ## Concrete fixtures used by witnesses and counterexamples -/

/-- A concrete API stub: one task on every listing; `add_task` echoes the
content back. -/
def api0 : Api := ⟨fun _ => [⟨"Купить молоко"⟩], fun c _ => ⟨c⟩⟩

/-- A concrete process date: ordinal 739901 is 2026-10-12. -/
def today0 : Int := 739901

/-- An empty first-session turn. -/
def r0 : Request := ⟨[], []⟩

/-- A turn whose session names a scene identity absent from the registry. -/
def r_unknown : Request := ⟨[], [("scene", Value.str "Garbage")]⟩

/-- A turn whose session names the abstract base class `Scene`, which the
reflective registry does contain. -/
def r_abstract : Request := ⟨[], [("scene", Value.str "Scene")]⟩

/-- A turn whose persisted scene id is itself a dict — unhashable as a
Python dict key. -/
def r_dict_scene : Request := ⟨[], [("scene", Value.dict [])]⟩

/-- A list-tasks turn with the `time` slot `"today"`. -/
def r_list_today : Request :=
  ⟨[(intents.GET_NEAREST_TASKS,
     Value.dict [("slots", Value.dict [("time", Value.dict [("value", Value.str "today")])])])], []⟩

/-- A list-tasks turn with no `time` slot and no session `time`. -/
def r_list_nofilter : Request := ⟨[(intents.GET_NEAREST_TASKS, Value.dict [])], []⟩

/-- A follow-up turn at TasksList carrying a "next"-style intent together
with the session state of a previous listing. -/
def r_next : Request :=
  ⟨[("next", Value.dict [])],
   [("scene", Value.str "TasksList"),
    ("time", Value.dict [("value", Value.str "today")]),
    ("position", Value.dict [("value", Value.int 0)])]⟩

/-- A create-task turn whose `when` (due date) slot is absent. -/
def r_create_nowhen : Request :=
  ⟨[(intents.CREATE_TASK,
     Value.dict [("slots", Value.dict [("what", Value.dict [("value", Value.str "buy milk")])])])], []⟩

/-- A create-task turn with a relative due date of one day ("tomorrow"). -/
def r_create_tomorrow : Request :=
  ⟨[(intents.CREATE_TASK, Value.dict [("slots", Value.dict
      [("what", Value.dict [("value", Value.str "купить молоко")]),
       ("when", Value.dict [("type", Value.str "YANDEX.DATETIME"),
         ("value", Value.dict [("day_is_relative", Value.bool true), ("day", Value.int 1)])])])])], []⟩

/-- A create-task turn whose `when` slot has a non-datetime declared type. -/
def r_create_otherty : Request :=
  ⟨[(intents.CREATE_TASK, Value.dict [("slots", Value.dict
      [("what", Value.dict [("value", Value.str "купить молоко")]),
       ("when", Value.dict [("type", Value.str "YANDEX.STRING"),
         ("value", Value.str "завтра")])])])], []⟩

/-- A create-task turn with an absolute due date whose year is omitted
(so it defaults to today's year). -/
def r_create_noyear : Request :=
  ⟨[(intents.CREATE_TASK, Value.dict [("slots", Value.dict
      [("when", Value.dict [("type", Value.str "YANDEX.DATETIME"),
         ("value", Value.dict [("day_is_relative", Value.bool false),
           ("day", Value.int 31), ("month", Value.int 12)])])])])], []⟩

/-- A turn whose persisted position value is a non-numeric string. -/
def r_pos_str : Request :=
  ⟨[], [("position", Value.dict [("value", Value.str "abc")])]⟩

/-! ## Helper lemmas -/

lemma dlookup_map_setKey (k k' : String) (v : Value) (h : k' ≠ k) :
    ∀ l : List (String × Value),
      dlookup (l.map (fun p => if p.1 = k' then (k', v) else p)) k = dlookup l k := by
  intro l
  induction l with
  | nil => rfl
  | cons a t ih =>
    by_cases ha : a.1 = k'
    · have hak : ¬ a.1 = k := by rw [ha]; exact h
      simp [dlookup, ha, h, hak, ih]
    · by_cases hak : a.1 = k
      · have hk' : ¬ k = k' := fun hh => h hh.symm
        simp [dlookup, ha, hak, hk']
      · simp [dlookup, ha, hak, ih]

lemma dlookup_append_single (k k' : String) (v : Value) (h : k' ≠ k) :
    ∀ l : List (String × Value), dlookup (l ++ [(k', v)]) k = dlookup l k := by
  intro l
  induction l with
  | nil => simp [dlookup, h]
  | cons a t ih =>
    by_cases hak : a.1 = k
    · simp [dlookup, hak]
    · simp [dlookup, hak, ih]

lemma dlookup_dsetKey_ne (l : List (String × Value)) (k k' : String) (v : Value) (h : k' ≠ k) :
    dlookup (dsetKey l k' v) k = dlookup l k := by
  unfold dsetKey
  split
  · exact dlookup_map_setKey k k' v h l
  · exact dlookup_append_single k k' v h l

lemma dlookup_dupdate_ne (k : String) :
    ∀ (st base : List (String × Value)), (∀ p ∈ st, p.1 ≠ k) →
      dlookup (dupdate base st) k = dlookup base k := by
  intro st
  induction st with
  | nil => intro base _; rfl
  | cons a t ih =>
    intro base hst
    have h1 : dupdate base (a :: t) = dupdate (dsetKey base a.1 a.2) t := rfl
    rw [h1, ih (dsetKey base a.1 a.2) (fun p hp => hst p (List.mem_cons_of_mem a hp))]
    exact dlookup_dsetKey_ne base k a.1 a.2 (hst a (List.mem_cons_self a t))

lemma TasksList_reply_state (api : Api) (r : Request) (resp : WebhookResponse)
    (h : TasksList.reply api r = .ok resp) :
    resp.state = [("scene", Value.str "TasksList")] := by
  unfold TasksList.reply at h
  split at h
  · simp at h
  · simp at h
  · injection h with h
    subst h
    rfl

lemma CreateTask_reply_state (api : Api) (today : Int) (r : Request) (resp : WebhookResponse)
    (h : CreateTask.reply api today r = .ok resp) :
    resp.state = [("scene", Value.str "CreateTask")] := by
  unfold CreateTask.reply at h
  repeat' split at h
  all_goals simp_all
  subst h
  rfl

/-! ## Claim theorems -/

/-- C1: every Response produced by a scene's `reply` or `fallback` has a
state block whose `scene` key is present and equal to the identity of the
scene that produced it — never the previous scene's identity and never
absent; and `make_response` preserves that key when a scene passes an
additional state dict to merge (its entries bind keys other than `scene`,
as every scene's extra state does). -/
theorem c1_state_scene_key (c : ConcreteScene) (api : Api) (today : Int) (r : Request)
    (resp : WebhookResponse) (hre : Scene.reply api today c r = .ok resp) :
    dlookup resp.state "scene" = some (Value.str c.id)
  ∧ dlookup (Scene.fallback c r).state "scene" = some (Value.str c.id)
  ∧ ∀ (text : String) (st : List (String × Value)), (∀ p ∈ st, p.1 ≠ "scene") →
      dlookup (Scene.make_response c.id text none none none none (some st)).state "scene"
        = some (Value.str c.id) := by
  refine ⟨?_, ?_, ?_⟩
  · cases c with
    | Welcome =>
      simp only [Scene.reply] at hre
      injection hre with hre
      subst hre
      rfl
    | TasksList =>
      rw [TasksList_reply_state api r resp hre]
      rfl
    | CreateTask =>
      rw [CreateTask_reply_state api today r resp hre]
      rfl
  · cases c <;> rfl
  · intro text st hst
    simp only [Scene.make_response]
    exact (dlookup_dupdate_ne "scene" st [("scene", Value.str c.id)] hst).trans rfl

/-- Witness for C1: the Welcome scene at a concrete turn, both for the
fallback state block and for a merge of an additional state dict. -/
theorem c1_witness :
    dlookup (Scene.fallback ConcreteScene.Welcome r0).state "scene" = some (Value.str "Welcome")
  ∧ dlookup (Scene.make_response (ConcreteScene.id .Welcome) "hi" none none none none
      (some [("position", Value.int 5)])).state "scene" = some (Value.str "Welcome") := by
  have h := c1_state_scene_key .Welcome api0 today0 r0 (Welcome.reply r0) rfl
  exact ⟨h.2.1, h.2.2 "hi" [("position", Value.int 5)] (by decide)⟩

/-- C10: a turn whose session has no `scene` key gets the default scene's
reply directly (no transition attempted), and that Response's state-block
`scene` is the default scene's identity. -/
theorem c10_default_reply (api : Api) (today : Int) (r : Request)
    (h : dlookup r.session "scene" = none) :
    handler api today r = .ok (Welcome.reply r)
  ∧ dlookup (Welcome.reply r).state "scene" = some (Value.str "Welcome") := by
  constructor
  · unfold handler
    rw [h]
    rfl
  · rfl

/-- Witness for C10 at the empty first-session turn. -/
theorem c10_witness : handler api0 today0 r0 = .ok (Welcome.reply r0) :=
  (c10_default_reply api0 today0 r0 rfl).1

/-- C5: `move` consults the local handler first (here every scene's local
handler yields `none`), falls through to the shared global handler, maps a
globally recognized intent to the globally mapped scene for every scene,
and when neither matches the driver renders `fallback` on the current
scene. -/
theorem c5_transition_precedence :
    (∀ (c : ConcreteScene) (r : Request), handle_local_intents c r = none)
  ∧ (∀ (c : ConcreteScene) (r : Request),
      Scene.move c r = TodoistScene.handle_global_intents c r)
  ∧ (∀ (c : ConcreteScene) (r : Request),
      (dlookup r.intents intents.GET_NEAREST_TASKS).isSome = true →
      Scene.move c r = some ConcreteScene.TasksList)
  ∧ (∀ (c : ConcreteScene) (r : Request),
      dlookup r.intents intents.GET_NEAREST_TASKS = none →
      (dlookup r.intents intents.CREATE_TASK).isSome = true →
      Scene.move c r = some ConcreteScene.CreateTask)
  ∧ (∀ (api : Api) (today : Int) (c : ConcreteScene) (r : Request),
      dlookup r.session "scene" = some (Value.str c.id) →
      Scene.move c r = none →
      handler api today r = .ok (Scene.fallback c r)) := by
  refine ⟨?_, ?_, ?_, ?_, ?_⟩
  · intro c r
    cases c <;> rfl
  · intro c r
    cases c <;> rfl
  · intro c r hg
    cases c <;>
      simp [Scene.move, handle_local_intents, TodoistScene.handle_global_intents, hg]
  · intro c r hg1 hg2
    cases c <;>
      simp [Scene.move, handle_local_intents, TodoistScene.handle_global_intents, hg1, hg2]
  · intro api today c r hs hmove
    cases c <;>
      · unfold handler
        rw [hs]
        simp [Value.isNull, Value.isDict, SCENES_get, Value.isStrEq, SceneClass.call, hmove,
          ConcreteScene.id]

/-- Witness for C5: a global list-tasks intent moves Welcome to TasksList,
and a no-intent turn at TasksList renders TasksList's own fallback. -/
theorem c5_witness :
    Scene.move ConcreteScene.Welcome r_list_today = some ConcreteScene.TasksList
  ∧ handler api0 today0 r_next = .ok (Scene.fallback .TasksList r_next) := by
  constructor
  · exact c5_transition_precedence.2.2.1 .Welcome r_list_today rfl
  · exact c5_transition_precedence.2.2.2.2 api0 today0 .TasksList r_next rfl rfl

/-- C2 counterexample: with an unknown persisted identity (`"Garbage"`) and
no intents the turn completes with Welcome's *fallback* text, which differs
from Welcome's reply text; the persisted identity `"Scene"` — the abstract
base class, which the reflective registry does contain — makes the turn
raise TypeError at instantiation; and a dict-valued persisted identity is
unhashable, so the registry lookup itself raises TypeError. -/
theorem c2_counterexample :
    handler api0 today0 r_unknown = .ok (Scene.fallback .Welcome r_unknown)
  ∧ (Scene.fallback .Welcome r_unknown).response.text ≠ (Welcome.reply r_unknown).response.text
  ∧ handler api0 today0 r_abstract = .error "TypeError"
  ∧ handler api0 today0 r_dict_scene = .error "TypeError" := by
  refine ⟨rfl, ?_, rfl, rfl⟩
  decide

/-- C2 (amended): for every turn whose session carries a hashable scene
identity that is no registry key (hence unknown) and whose intents carry no
global intent, `handler` does not raise: the identity silently falls back
to the default scene and the turn completes with Welcome's fallback
response.  (A dict-valued identity instead raises TypeError at the registry
lookup, as the counterexample shows.) -/
theorem c2_amended_fallback (api : Api) (today : Int) (r : Request) (v : Value)
    (hs : dlookup r.session "scene" = some v) (hnn : v.isNull = false)
    (hnd : v.isDict = false)
    (h1 : v.isStrEq "Scene" = false) (h2 : v.isStrEq "TodoistScene" = false)
    (h3 : v.isStrEq "Welcome" = false) (h4 : v.isStrEq "TasksList" = false)
    (h5 : v.isStrEq "CreateTask" = false)
    (hg1 : dlookup r.intents intents.GET_NEAREST_TASKS = none)
    (hg2 : dlookup r.intents intents.CREATE_TASK = none) :
    handler api today r = .ok (Scene.fallback .Welcome r) := by
  unfold handler
  rw [hs]
  simp [Option.getD_some, hnn, hnd, SCENES_get, h1, h2, h3, h4, h5, SceneClass.call,
    Scene.move, handle_local_intents, TodoistScene.handle_global_intents, hg1, hg2]

/-- Witness for the amended C2 at the concrete unknown identity. -/
theorem c2_witness : handler api0 today0 r_unknown = .ok (Scene.fallback .Welcome r_unknown) :=
  c2_amended_fallback api0 today0 r_unknown (Value.str "Garbage")
    rfl rfl rfl rfl rfl rfl rfl rfl rfl rfl

/-- C3 counterexample: a TasksList Response persists no `position` in its
state block, and a follow-up turn carrying a "next" intent together with
that session state yields TasksList's fallback, still with no persisted
position — there is no `p + 1` round-trip. -/
theorem c3_counterexample :
    ((TasksList.reply api0 r_list_today).map fun resp => dlookup resp.state "position") = .ok none
  ∧ handler api0 today0 r_next = .ok (Scene.fallback .TasksList r_next)
  ∧ dlookup (Scene.fallback .TasksList r_next).state "position" = none :=
  ⟨rfl, rfl, rfl⟩

/-- C3 (amended): every TasksList Response's state block is exactly the
scene identity — no `position` and no `time` key is persisted — and a
subsequent turn carrying a "next" intent (not a global intent) with session
scene TasksList yields TasksList's fallback instead of advancing a
position. -/
theorem c3_no_position_roundtrip (api : Api) (r : Request) (resp : WebhookResponse)
    (h : TasksList.reply api r = .ok resp) :
    resp.state = [("scene", Value.str "TasksList")]
  ∧ (∀ (api' : Api) (today : Int) (r' : Request),
      dlookup r'.session "scene" = some (Value.str "TasksList") →
      dlookup r'.intents intents.GET_NEAREST_TASKS = none →
      dlookup r'.intents intents.CREATE_TASK = none →
      handler api' today r' = .ok (Scene.fallback .TasksList r')) := by
  constructor
  · exact TasksList_reply_state api r resp h
  · intro api' today r' hs hg1 hg2
    unfold handler
    rw [hs]
    simp [Value.isNull, Value.isDict, SCENES_get, Value.isStrEq, SceneClass.call, Scene.move,
      handle_local_intents, TodoistScene.handle_global_intents, hg1, hg2]

/-- Witness for the amended C3 at a concrete listing turn and a concrete
"next" follow-up turn. -/
theorem c3_witness :
    (Scene.make_response "TasksList" "Сейчас у вас 1 задач в списке: \n- 1: Купить молоко."
      none none none none none).state = [("scene", Value.str "TasksList")]
  ∧ handler api0 today0 r_next = .ok (Scene.fallback .TasksList r_next) := by
  have h := c3_no_position_roundtrip api0 r_list_today
    (Scene.make_response "TasksList" "Сейчас у вас 1 задач в списке: \n- 1: Купить молоко."
      none none none none none) rfl
  exact ⟨h.1, h.2 api0 today0 r_next rfl rfl rfl⟩

/-- A list-tasks request whose named intent carries a `time` slot with the
given value, over an arbitrary session. -/
def mkTimeReq (sv : Value) (sess : List (String × Value)) : Request :=
  ⟨[(intents.GET_NEAREST_TASKS,
     Value.dict [("slots", Value.dict [("time", Value.dict [("value", sv)])])])], sess⟩

/-- The filter keyword mapping as the spec words it: `"today"` to TODAY,
`"tomorrow"` to TOMORROW, anything else to no filter. -/
def classifyFilter (v : Value) : Option TaskFilter :=
  if v.isStrEq "today" then some .TODAY
  else if v.isStrEq "tomorrow" then some .TOMORROW
  else none

/-- C7 counterexample: at a list-tasks turn with no `time` slot and no
session fallback the extractor yields no filter — and TasksList's reply
treats exactly that outcome as fatal, raising AttributeError on
`None.value`. -/
theorem c7_counterexample :
    TaskFilter.from_request r_list_nofilter intents.GET_NEAREST_TASKS = .ok none
  ∧ TasksList.reply api0 r_list_nofilter = .error "AttributeError" :=
  ⟨rfl, rfl⟩

/-- C7 (amended): the `time` slot of the named intent is read first; when
it is falsy (absent or empty) the session's `time.value` is consulted
instead; `"today"`/`"tomorrow"` map to the two filters and any other value
yields no filter — but TasksList's reply treats that unknown-filter outcome
as fatal, raising AttributeError. -/
theorem c7_filter_extraction (sv sessTimeV : Value) (sess : List (String × Value)) :
    (sv.truthy = true →
      TaskFilter.from_request (mkTimeReq sv sess) intents.GET_NEAREST_TASKS
        = .ok (classifyFilter sv))
  ∧ (sv.truthy = false → dlookup sess "time" = none →
      TaskFilter.from_request (mkTimeReq sv sess) intents.GET_NEAREST_TASKS = .ok none)
  ∧ (sv.truthy = false → dlookup sess "time" = some (Value.dict [("value", sessTimeV)]) →
      TaskFilter.from_request (mkTimeReq sv sess) intents.GET_NEAREST_TASKS
        = .ok (classifyFilter sessTimeV))
  ∧ (dlookup sess "time" = some (Value.dict [("value", sessTimeV)]) →
      TaskFilter.from_request ⟨[(intents.GET_NEAREST_TASKS, Value.dict [])], sess⟩
        intents.GET_NEAREST_TASKS = .ok (classifyFilter sessTimeV))
  ∧ classifyFilter (Value.str "today") = some .TODAY
  ∧ classifyFilter (Value.str "tomorrow") = some .TOMORROW
  ∧ (∀ v : Value, v.isStrEq "today" = false → v.isStrEq "tomorrow" = false →
      classifyFilter v = none)
  ∧ (∀ (api : Api) (r : Request),
      TaskFilter.from_request r intents.GET_NEAREST_TASKS = .ok none →
      TasksList.reply api r = .error "AttributeError") := by
  refine ⟨?_, ?_, ?_, ?_, rfl, rfl, ?_, ?_⟩
  · intro hsv
    unfold TaskFilter.from_request mkTimeReq
    simp [dlookup, Value.pyGet, hsv, classifyFilter]
    split_ifs <;> rfl
  · intro hsv hsess
    unfold TaskFilter.from_request mkTimeReq
    rw [hsess]
    simp [dlookup, Value.pyGet, Value.isStrEq, hsv]
  · intro hsv hsess
    unfold TaskFilter.from_request mkTimeReq
    rw [hsess]
    simp [dlookup, Value.pyGet, hsv, classifyFilter]
    split_ifs <;> rfl
  · intro hsess
    unfold TaskFilter.from_request
    rw [hsess]
    simp [dlookup, Value.pyGet, Value.truthy, classifyFilter]
    split_ifs <;> rfl
  · intro v h1 h2
    simp [classifyFilter, h1, h2]
  · intro api r h
    unfold TasksList.reply
    rw [h]

/-- Witness for the amended C7: a truthy slot maps to TOMORROW, and the
unknown-filter outcome is fatal at a concrete turn. -/
theorem c7_witness :
    TaskFilter.from_request (mkTimeReq (Value.str "tomorrow") []) intents.GET_NEAREST_TASKS
      = .ok (some TaskFilter.TOMORROW)
  ∧ TasksList.reply api0 r_list_nofilter = .error "AttributeError" := by
  refine ⟨?_, ?_⟩
  · exact (c7_filter_extraction (Value.str "tomorrow") Value.null []).1 rfl
  · exact (c7_filter_extraction Value.null Value.null []).2.2.2.2.2.2.2 api0 r_list_nofilter rfl

/-- C9 counterexample: a present non-numeric `position.value` (the string
"abc") is returned as-is, not replaced by 0 as the claim states. -/
theorem c9_counterexample :
    TaskPosition.from_request r_pos_str = .ok (Value.str "abc")
  ∧ Value.str "abc" ≠ Value.int 0 :=
  ⟨rfl, fun h => Value.noConfusion h⟩

/-- C9 (amended): the position is read from `session["position"]["value"]`
only — an absent path defaults to 0, while a present value is passed
through unvalidated (non-numeric values included) — and the turn's own
intent slots are never consulted. -/
theorem c9_position_extraction (r : Request) :
    (dlookup r.session "position" = none → TaskPosition.from_request r = .ok (Value.int 0))
  ∧ (∀ fields, dlookup r.session "position" = some (Value.dict fields) →
      TaskPosition.from_request r = .ok ((dlookup fields "value").getD (Value.int 0)))
  ∧ (∀ r' : Request, r.session = r'.session →
      TaskPosition.from_request r = TaskPosition.from_request r') := by
  refine ⟨?_, ?_, ?_⟩
  · intro h
    unfold TaskPosition.from_request
    rw [h]
    rfl
  · intro fields h
    unfold TaskPosition.from_request
    rw [h]
    rfl
  · intro r' h
    unfold TaskPosition.from_request
    rw [h]

/-- Witness for the amended C9: the empty session defaults the position
to 0. -/
theorem c9_witness : TaskPosition.from_request r0 = .ok (Value.int 0) :=
  (c9_position_extraction r0).1 rfl

/-- C6: evaluation at the failing input — an intent whose date slot is
absent: the code indexes `['type']` on the defaulted empty payload and
raises KeyError instead of treating the slot as not present.  The other
branches behave as claimed: a non-datetime slot type yields no date, a
relative day is added to today, and an absolute payload composes
year/month/day with the missing year defaulting to today's. -/
theorem c6_date_extraction_eval :
    Time.from_request_slot today0 r_create_nowhen intents.CREATE_TASK "when" = .error "KeyError"
  ∧ Time.from_request_slot today0 r_create_otherty intents.CREATE_TASK "when" = .ok none
  ∧ Time.from_request_slot today0 r_create_tomorrow intents.CREATE_TASK "when"
      = .ok (some (today0 + 1))
  ∧ Time.from_request_slot today0 r_create_noyear intents.CREATE_TASK "when"
      = .ok (some (daysFromCivil (yearOf today0) 12 31)) :=
  ⟨rfl, rfl, rfl, rfl⟩

/-- C8: CreateTask's reply does not succeed when the due-date slot is
absent — the date extractor raises KeyError — and with a slot of a
non-datetime type the extractor's `None` hits `.isoformat()` and raises
AttributeError.  With a due date present the confirmation capitalizes the
content's first character and includes the humanized due-date phrase. -/
theorem c8_createtask_reply_eval :
    CreateTask.reply api0 today0 r_create_nowhen = .error "KeyError"
  ∧ CreateTask.reply api0 today0 r_create_otherty = .error "AttributeError"
  ∧ CreateTask.reply api0 today0 r_create_tomorrow
      = .ok (Scene.make_response "CreateTask"
          "Создала задачу на завтра: \"Купить молоко\"" none none none none none) :=
  ⟨rfl, rfl, rfl⟩

lemma head_dropWhile_false (p : Char → Bool) :
    ∀ (l : List Char) (c : Char), (l.dropWhile p).head? = some c → p c = false := by
  intro l
  induction l with
  | nil => intro c h; simp [List.dropWhile] at h
  | cons a t ih =>
    intro c h
    by_cases hp : p a
    · rw [List.dropWhile_cons_of_pos hp] at h
      exact ih c h
    · rw [List.dropWhile_cons_of_neg hp] at h
      simp at h
      subst h
      simpa using hp

/-- C4: the date-humanization boundary table, with `today` as reference:
today is "сегодня", +1 "завтра", +2 "послезавтра"; any other future date in
the current year is the day-and-month phrase (lstrip-ped of leading
zeroes, no year); any other future date in a different year, and every past
date other than -1 "вчера" / -2 "позавчера", is the day-month-year phrase
ending in "года" — past dates always carry the year even within the current
year.  The final conjunct states that a humanized date phrase never starts
with a leading zero. -/
theorem c4_humanize_boundary_table (today d : Int) :
    Time.make_relative today today = "сегодня"
  ∧ Time.make_relative today (today + 1) = "завтра"
  ∧ Time.make_relative today (today + 2) = "послезавтра"
  ∧ (today + 2 < d → yearOf d = yearOf today →
      Time.make_relative today d = lstrip0 (fmt_dB d))
  ∧ (today < d → d ≠ today + 1 → d ≠ today + 2 → yearOf d ≠ yearOf today →
      Time.make_relative today d = lstrip0 (fmt_dBY d))
  ∧ Time.make_relative today (today - 1) = "вчера"
  ∧ Time.make_relative today (today - 2) = "позавчера"
  ∧ (d + 2 < today → Time.make_relative today d = lstrip0 (fmt_dBY d))
  ∧ (∀ (s : String) (ch : Char), (lstrip0 s).data.head? = some ch → ch ≠ '0') := by
  refine ⟨?_, ?_, ?_, ?_, ?_, ?_, ?_, ?_, ?_⟩
  · simp [Time.make_relative]
  · unfold Time.make_relative
    split_ifs <;> first | rfl | omega
  · unfold Time.make_relative
    split_ifs <;> first | rfl | omega
  · intro h1 h2
    unfold Time.make_relative
    split_ifs <;> first | rfl | omega
  · intro h1 h2 h3 h4
    unfold Time.make_relative
    split_ifs <;> first | rfl | omega
  · unfold Time.make_relative
    split_ifs <;> first | rfl | omega
  · unfold Time.make_relative
    split_ifs <;> first | rfl | omega
  · intro h1
    unfold Time.make_relative
    split_ifs <;> first | rfl | omega
  · intro s ch h
    have h2 := head_dropWhile_false (fun c => c == '0') s.data ch h
    simpa using h2

/-- Witness for C4 at concrete dates around today = 2026-10-12 (ordinal
739901): 739981 = 2026-12-31 (distant future, same year), 739996 =
2027-01-15 (future, next year), 739252 = 2025-01-01 (distant past). -/
theorem c4_witness :
    Time.make_relative 739901 739981 = lstrip0 (fmt_dB 739981)
  ∧ Time.make_relative 739901 739996 = lstrip0 (fmt_dBY 739996)
  ∧ Time.make_relative 739901 739252 = lstrip0 (fmt_dBY 739252)
  ∧ lstrip0 (fmt_dB 739981) = "31 декабря"
  ∧ lstrip0 (fmt_dBY 739996) = "15 января 2027 года"
  ∧ lstrip0 (fmt_dBY 739252) = "1 января 2025 года" := by
  refine ⟨?_, ?_, ?_, by decide, by decide, by decide⟩
  · exact (c4_humanize_boundary_table 739901 739981).2.2.2.1 (by decide) (by decide)
  · exact (c4_humanize_boundary_table 739901 739996).2.2.2.2.1
      (by decide) (by decide) (by decide) (by decide)
  · exact (c4_humanize_boundary_table 739901 739252).2.2.2.2.2.2.2.1 (by decide)
